import Mathlib

/-!
Shallow embedding of `src/capplet/gsp-app.c` (mate-session-manager): the
autostart-entry object (`GspApp`), its deferred-save scheduler, the
user/system "shadow removal" reconciliation, the load-or-update logic
(`gsp_app_new`), the mutation API and the free-filename search.

C strings (`char *`) are modelled as `Option String` (`none` = NULL).
`unsigned int` positions are modelled as `Nat` with `G_MAXUINT` as the
explicit sentinel value; no arithmetic in this file can overflow a C
`unsigned int`.

External collaborators (the Config Document / `gsp-keyfile` getters and
setters, the Entry Registry / `gsp-app-manager`, glib filesystem and shell
calls) live outside `src/`; they are abstracted by the `Env` record and
the `KeyFile` structure, following the external-interface description of
the specification (sections 1 and 6).
-/

namespace GspAppModel

/-- A C string pointer: `none` is NULL. -/
abbrev Str := Option String

/-- `_gsp_str_equal` from gsp-app.c: `g_strcmp0` equality, except that a
NULL pointer and an empty string are considered equal. -/
def gsp_str_equal : Str → Str → Bool
  | none, none => true
  | some a, some b => a == b
  | some a, none => a == ""
  | none, some b => b == ""

/-- Modelled from the spec: `gsm_util_text_is_blank` (gsm-util.c, outside
`src/`): a string is blank when it is absent or contains no
non-whitespace character. -/
def gsm_util_text_is_blank : Str → Bool
  | none => true
  | some s => s.data.all (fun c => c.isWhitespace)

/-- `g_path_get_basename`, restricted to the use made of it here: the part
of the path after the last slash. Implemented over the character list so
that it evaluates by kernel reduction. -/
def pathBasename (path : String) : String :=
  ⟨(path.data.reverse.takeWhile (fun c => c != '/')).reverse⟩

/-- `g_str_has_suffix`. -/
def g_str_has_suffix (s suffix : String) : Bool :=
  suffix.data.isSuffixOf s.data

/-- Drop the last `n` characters of a string (used for stripping the
".desktop" suffix, as `g_strndup(s, strlen(s) - strlen(".desktop"))`). -/
def strDropRight (s : String) (n : Nat) : String :=
  ⟨(s.data.reverse.drop n).reverse⟩

/-- `GIcon`, by the two ways gsp-app.c constructs one: a file-based icon
for an absolute icon path, a themed icon otherwise. -/
inductive GIcon where
  | fileIcon (path : String)
  | themedIcon (name : String)
deriving DecidableEq

/-- The Config Document abstraction (spec section 6): a parsed desktop
key-value file, represented by the results of the typed getters of
gsp-keyfile.c (which is outside `src/`). `hidden`, `nodisplay` and
`delay` already incorporate the getters' defaults (FALSE resp. 0). -/
structure KeyFile where
  hidden : Bool
  nodisplay : Bool
  name : Str
  exec : Str
  comment : Str
  icon : Str
  delay : Nat
  onlyShowIn : Option (List String)
  notShowIn : Option (List String)
deriving DecidableEq

/-- Modelled from the spec: `gsp_key_file_populate` (gsp-keyfile.c, outside
`src/`) — the fresh document with default structure used when the base
file is absent or unparseable. -/
def gsp_key_file_populate : KeyFile :=
  { hidden := false, nodisplay := false, name := none, exec := none,
    comment := none, icon := none, delay := 0,
    onlyShowIn := none, notShowIn := none }

/-- `G_MAXUINT` for a 32-bit C `unsigned int`: the "none" sentinel for
`xdg_position` / `xdg_system_position`. -/
def G_MAXUINT : Nat := 4294967295

def GSP_APP_SAVE_DELAY : Nat := 2

def GSP_ASP_SAVE_MASK_HIDDEN : Nat := 0x0001
def GSP_ASP_SAVE_MASK_NAME : Nat := 0x0002
def GSP_ASP_SAVE_MASK_EXEC : Nat := 0x0004
def GSP_ASP_SAVE_MASK_COMMENT : Nat := 0x0008
def GSP_ASP_SAVE_MASK_DELAY : Nat := 0x0010
def GSP_ASP_SAVE_MASK_ALL : Nat := 0xffff

/-- `GspAppPrivate` from gsp-app.c. `save_failed` is a ghost history
variable, not present in the C struct: it records that a save attempt
failed and is pending retry (set by the write-failure branch of
`_gsp_app_save`, cleared by `_gsp_app_save_done_success` and by a full
reload); it is used only to state the dirty-mask invariant claim. -/
structure GspApp where
  basename : String
  path : String
  hidden : Bool
  nodisplay : Bool
  name : Str
  exec : Str
  comment : Str
  icon : Str
  delay : Nat
  gicon : Option GIcon
  description : Str
  xdg_position : Nat
  xdg_system_position : Nat
  save_timeout : Nat
  save_mask : Nat
  old_system_path : Str
  skip_next_monitor_event : Bool
  save_failed : Bool
deriving DecidableEq

/-- The external world consumed by gsp-app.c (spec sections 1 and 6):
the filesystem as seen through `g_key_file_load_from_file` (`fs`) and
`g_file_test(..., G_FILE_TEST_EXISTS)` (`fileExists`), the Entry Registry
(`gsp_app_manager_get_dir` as `dirs`, presence of an app with a given
basename in `gsp_app_manager_find_app_with_basename` as `registry`),
`g_get_user_config_dir` (`userConfigDir`), `g_shell_parse_argv`
(`shellParse`) and the success of `g_key_file_save_to_file` (`writeOk`). -/
structure Env where
  userConfigDir : String
  fs : String → Option KeyFile
  fileExists : String → Bool
  dirs : Nat → Option String
  registry : String → Bool
  shellParse : String → Option (List String)
  writeOk : String → Bool

/-- `g_build_filename(g_get_user_config_dir(), "autostart", b, NULL)`. -/
def userAutostartFile (env : Env) (b : String) : String :=
  env.userConfigDir ++ "/autostart/" ++ b

/-- `_gsp_app_update_description`: derived markup description from
name/exec/comment. `g_markup_printf_escaped` is an external glib call;
its escaping is abstracted to plain interpolation, which the claims never
inspect. -/
def gsp_app_update_description (e : GspApp) : GspApp :=
  let primary :=
    if gsm_util_text_is_blank e.name = false then e.name.getD ""
    else if gsm_util_text_is_blank e.exec = false then e.exec.getD ""
    else "No name"
  let secondary :=
    if gsm_util_text_is_blank e.comment = false then e.comment.getD ""
    else "No description"
  { e with description := some ("<b>" ++ primary ++ "</b>\n" ++ secondary) }

/-- `_gsp_app_queue_save`: cancel any armed timer, promote the entry to
the user directory on first arming (recording `old_system_path` as the
merge base unless a previous failed save already recorded one), and arm a
fresh timer. The fresh glib source id is passed in as `tid` (the real
`g_timeout_add_seconds` returns an unpredictable nonzero id). -/
def gsp_app_queue_save (env : Env) (tid : Nat) (e : GspApp) : GspApp :=
  let e := if e.save_timeout ≠ 0 then { e with save_timeout := 0 } else e
  let e :=
    if e.xdg_position ≠ 0 then
      { e with
        xdg_position := 0,
        old_system_path :=
          match e.old_system_path with
          | none => some e.path
          | some p => some p,
        path := userAutostartFile env e.basename }
    else e
  { e with save_timeout := tid }

/-- `_gsp_app_user_equal_system`: look up the first system directory also
defining this basename, load its file, and compare every field
(hidden, name, comment, exec, icon with `_gsp_str_equal`; delay exactly)
against the in-memory entry. Returns the system path on full equality. -/
def gsp_app_user_equal_system (env : Env) (e : GspApp) : Option String :=
  match env.dirs e.xdg_system_position with
  | none => none
  | some system_dir =>
    let path := system_dir ++ "/" ++ e.basename
    match env.fs path with
    | none => none
    | some keyfile =>
      if keyfile.hidden ≠ e.hidden then none
      else if gsp_str_equal keyfile.name e.name = false then none
      else if gsp_str_equal keyfile.comment e.comment = false then none
      else if gsp_str_equal keyfile.exec e.exec = false then none
      else if gsp_str_equal keyfile.icon e.icon = false then none
      else if keyfile.delay ≠ e.delay then none
      else some path

/-- Result of one run of `_gsp_app_save`: the entry afterwards, whether
the user-directory file was removed (shadow removal), the document
written on a successful write (`none` when no write happened), and
whether the write failed (the `g_warning` branch). -/
structure SaveResult where
  app : GspApp
  removedUserFile : Bool
  written : Option KeyFile
  writeFailed : Bool
deriving DecidableEq

/-- `_gsp_app_save` (the flush). First the shadow-removal check; else
merge the dirty fields into the document loaded from `old_system_path`
(if set) or `path`, and write it to `path`. Note that the shadow-removal
branch returns without executing the final `priv->save_timeout = 0`. -/
def gsp_app_save (env : Env) (e : GspApp) : SaveResult :=
  match gsp_app_user_equal_system env e with
  | some use_path =>
    { app := { e with
        path := use_path,
        xdg_position := e.xdg_system_position,
        save_mask := 0, old_system_path := none, save_failed := false },
      removedUserFile := env.fileExists e.path,
      written := none, writeFailed := false }
  | none =>
    let use_path := match e.old_system_path with | some p => p | none => e.path
    let keyfile := match env.fs use_path with
      | some kf => kf
      | none => gsp_key_file_populate
    let keyfile :=
      if e.save_mask &&& GSP_ASP_SAVE_MASK_HIDDEN ≠ 0 then
        { keyfile with hidden := e.hidden }
      else keyfile
    let keyfile :=
      if e.save_mask &&& GSP_ASP_SAVE_MASK_NAME ≠ 0 then
        { keyfile with name := e.name }
      else keyfile
    let keyfile :=
      if e.save_mask &&& GSP_ASP_SAVE_MASK_COMMENT ≠ 0 then
        { keyfile with comment := e.comment }
      else keyfile
    let keyfile :=
      if e.save_mask &&& GSP_ASP_SAVE_MASK_EXEC ≠ 0 then
        { keyfile with exec := e.exec }
      else keyfile
    let keyfile :=
      if e.save_mask &&& GSP_ASP_SAVE_MASK_DELAY ≠ 0 then
        { keyfile with delay := e.delay }
      else keyfile
    if env.writeOk e.path then
      { app := { e with
          skip_next_monitor_event := true,
          save_mask := 0, old_system_path := none, save_failed := false,
          save_timeout := 0 },
        removedUserFile := false, written := some keyfile, writeFailed := false }
    else
      { app := { e with save_timeout := 0, save_failed := true },
        removedUserFile := false, written := none, writeFailed := true }

/-- `gsp_app_set_hidden`: no-op on equal value, else set the field, mark
the hidden bit dirty, queue a save and emit "changed" (the Bool result
records whether the "changed" signal was emitted). -/
def gsp_app_set_hidden (env : Env) (tid : Nat) (e : GspApp) (hidden : Bool) :
    GspApp × Bool :=
  if hidden = e.hidden then (e, false)
  else
    (gsp_app_queue_save env tid
      { e with hidden := hidden,
               save_mask := e.save_mask ||| GSP_ASP_SAVE_MASK_HIDDEN },
     true)

/-- `gsp_app_update`: compare each incoming value with `_gsp_str_equal`
(delay exactly), replace and mark dirty only the fields that differ,
recompute the description when name or comment changed, then queue a save
and emit "changed" iff anything changed (the Bool result). -/
def gsp_app_update (env : Env) (tid : Nat) (e : GspApp)
    (name comment exec : Str) (delay : Nat) : GspApp × Bool :=
  let changed := false
  let (e, changed) :=
    if gsp_str_equal name e.name = false then
      ({ e with name := name,
                save_mask := e.save_mask ||| GSP_ASP_SAVE_MASK_NAME }, true)
    else (e, changed)
  let (e, changed) :=
    if gsp_str_equal comment e.comment = false then
      ({ e with comment := comment,
                save_mask := e.save_mask ||| GSP_ASP_SAVE_MASK_COMMENT }, true)
    else (e, changed)
  let e := if changed then gsp_app_update_description e else e
  let (e, changed) :=
    if gsp_str_equal exec e.exec = false then
      ({ e with exec := exec,
                save_mask := e.save_mask ||| GSP_ASP_SAVE_MASK_EXEC }, true)
    else (e, changed)
  let (e, changed) :=
    if delay ≠ e.delay then
      ({ e with delay := delay,
                save_mask := e.save_mask ||| GSP_ASP_SAVE_MASK_DELAY }, true)
    else (e, changed)
  if changed then (gsp_app_queue_save env tid e, true) else (e, false)

/-- Result of `gsp_app_delete`: the entry afterwards, whether the backing
file was removed, and which signal was emitted. -/
structure DeleteResult where
  app : GspApp
  removedFile : Bool
  emittedRemoved : Bool
  emittedChanged : Bool
deriving DecidableEq

/-- `gsp_app_delete`: for an entry existing only in the user directory
(rank 0 and no shadowing system rank), cancel any armed save, remove the
backing file, force `hidden` (with its dirty bit, "for extra safety") and
emit "removed"; otherwise set `hidden`, mark it dirty, queue a save and
emit "changed". -/
def gsp_app_delete (env : Env) (tid : Nat) (e : GspApp) : DeleteResult :=
  if e.xdg_position = 0 ∧ e.xdg_system_position = G_MAXUINT then
    { app := { e with
        save_timeout := 0,
        hidden := true,
        save_mask := e.save_mask ||| GSP_ASP_SAVE_MASK_HIDDEN },
      removedFile := env.fileExists e.path,
      emittedRemoved := true, emittedChanged := false }
  else
    { app := gsp_app_queue_save env tid
        { e with hidden := true,
                 save_mask := e.save_mask ||| GSP_ASP_SAVE_MASK_HIDDEN },
      removedFile := false,
      emittedRemoved := false, emittedChanged := true }

/-- `gsp_app_can_launch`: eligible iff "MATE" is in the OnlyShowIn list
when one is present, and not in the NotShowIn list when one is present. -/
def gsp_app_can_launch (kf : KeyFile) : Bool :=
  (match kf.onlyShowIn with
   | none => true
   | some l => l.contains "MATE") &&
  (match kf.notShowIn with
   | none => true
   | some l => !(l.contains "MATE"))

/-- The zeroed state `gsp_app_init` gives a freshly constructed object:
everything 0/NULL except the two positions, which start at `G_MAXUINT`. -/
def gsp_app_init_state (basename : String) : GspApp :=
  { basename := basename, path := "", hidden := false, nodisplay := false,
    name := none, exec := none, comment := none, icon := none, delay := 0,
    gicon := none, description := none,
    xdg_position := G_MAXUINT, xdg_system_position := G_MAXUINT,
    save_timeout := 0, save_mask := 0, old_system_path := none,
    skip_next_monitor_event := false, save_failed := false }

/-- The field-repopulation part of `gsp_app_new` (lines 778-827): refill
every field from the parsed document, substitute the exec command for a
blank name, resolve the icon, recompute the description, then set the
positions (for a system rank the code asserts
`xdg_position <= xdg_system_position` and records the rank as the system
position), clear the timer handle, merge base and suppression flag. -/
def gsp_app_populate (priv : GspApp) (kf : KeyFile) (path : String)
    (xdg_position : Nat) : GspApp :=
  let name := if gsm_util_text_is_blank kf.name then kf.exec else kf.name
  let gicon : Option GIcon :=
    match kf.icon with
    | some icon =>
      if icon.data.head? = some '/' then some (GIcon.fileIcon icon)
      else some (GIcon.themedIcon icon)
    | none => none
  let e := { priv with
    path := path, hidden := kf.hidden, nodisplay := kf.nodisplay,
    name := name, exec := kf.exec, comment := kf.comment,
    delay := kf.delay, icon := kf.icon, gicon := gicon }
  let e := gsp_app_update_description e
  let e :=
    if xdg_position > 0 then { e with xdg_system_position := xdg_position }
    else e
  { e with
    xdg_position := xdg_position,
    save_timeout := 0, old_system_path := none,
    skip_next_monitor_event := false, save_failed := false }

/-- Result of `gsp_app_new`: its return value, and the state of the
(found or newly created) entry object after the call (`none` when no
entry existed and none was created). -/
structure NewResult where
  ret : Option GspApp
  entry : Option GspApp
deriving DecidableEq

/-- `gsp_app_new` (loadOrUpdate). The Registry lookup
`gsp_app_manager_find_app_with_basename` is passed in as `found` (the
entry currently registered under `pathBasename path`, if any). For an
existing entry: a self-caused monitor event (same rank, suppression flag
set) clears the flag and returns NULL; a lower-priority duplicate (or any
event while a save is armed) only lowers `xdg_system_position` to the
minimum observed and returns NULL; otherwise the file is parsed,
filtered by `gsp_app_can_launch`, and the entry is repopulated in place. -/
def gsp_app_new (env : Env) (found : Option GspApp) (path : String)
    (xdg_position : Nat) : NewResult :=
  let basename := pathBasename path
  match found with
  | some priv =>
    if priv.xdg_position = xdg_position ∧
       priv.skip_next_monitor_event = true then
      { ret := none,
        entry := some { priv with skip_next_monitor_event := false } }
    else if priv.xdg_position < xdg_position ∨ priv.save_timeout ≠ 0 then
      { ret := none,
        entry := some { priv with
          xdg_system_position := min xdg_position priv.xdg_system_position } }
    else
      match env.fs path with
      | none => { ret := none, entry := some priv }
      | some keyfile =>
        if gsp_app_can_launch keyfile = false then
          { ret := none, entry := some priv }
        else
          let e := gsp_app_populate priv keyfile path xdg_position
          { ret := some e, entry := some e }
  | none =>
    match env.fs path with
    | none => { ret := none, entry := none }
    | some keyfile =>
      if gsp_app_can_launch keyfile = false then
        { ret := none, entry := none }
      else
        let e := gsp_app_populate (gsp_app_init_state basename) keyfile path
                   xdg_position
        { ret := some e, entry := some e }

def GSP_FIND_MAX_TRY : Nat := 10000

/-- The probe loop of `_gsp_find_free_basename`: keep going while the
candidate basename is registered in the Registry AND the candidate
filename exists on the filesystem AND the attempt counter is below the
bound; each iteration regenerates the candidate from `base_path` with
the numeric suffix `i`. The fuel argument only bounds the recursion: the
top-level call passes `GSP_FIND_MAX_TRY`, which the `i < GSP_FIND_MAX_TRY`
conjunct keeps from ever being exhausted. -/
def gsp_find_loop (env : Env) (base_path : String) :
    Nat → String → String → Nat → String × Nat
  | 0, _, basename, i => (basename, i)
  | fuel + 1, filename, basename, i =>
    if env.registry basename = true ∧ env.fileExists filename = true ∧
       i < GSP_FIND_MAX_TRY then
      gsp_find_loop env base_path fuel
        (base_path ++ "-" ++ toString i ++ ".desktop")
        (pathBasename (base_path ++ "-" ++ toString i ++ ".desktop"))
        (i + 1)
    else (basename, i)

/-- The `base_path` computed at the head of `_gsp_find_free_basename`:
the user-autostart path of the suggestion with any ".desktop" suffix
stripped. -/
def basePathOf (env : Env) (suggested_basename : String) : String :=
  if g_str_has_suffix suggested_basename ".desktop" then
    userAutostartFile env (strDropRight suggested_basename 8)
  else
    userAutostartFile env suggested_basename

/-- `_gsp_find_free_basename`: strip a ".desktop" suffix from the
suggestion, build the user-autostart base path, and probe
`base.desktop`, `base-1.desktop`, ... with `gsp_find_loop`; NULL when the
loop stopped because the attempt bound was reached. -/
def gsp_find_free_basename (env : Env) (suggested_basename : String) :
    Option String :=
  let base_path := basePathOf env suggested_basename
  let filename := base_path ++ ".desktop"
  let basename := pathBasename filename
  let r := gsp_find_loop env base_path GSP_FIND_MAX_TRY filename basename 1
  if r.2 = GSP_FIND_MAX_TRY then none else some r.1

/-- `gsp_app_create`: refuse a blank exec, tokenize it with the shell
parser, derive a free basename from the first token, and build a brand
new user-directory entry with every field dirty and an armed save.
Returns the entry handed to `gsp_app_manager_add` (`none` when creation
failed before anything was registered). -/
def gsp_app_create (env : Env) (tid : Nat) (name comment exec : Str)
    (delay : Nat) : Option GspApp :=
  if gsm_util_text_is_blank exec then none
  else
    match env.shellParse (exec.getD "") with
    | none => none
    | some argv =>
      match gsp_find_free_basename env (argv.headD "") with
      | none => none
      | some basename =>
        let e : GspApp :=
          { basename := basename,
            path := userAutostartFile env basename,
            hidden := false, nodisplay := false,
            name := if gsm_util_text_is_blank name = false then name else exec,
            exec := exec, comment := comment, delay := delay,
            icon := none, gicon := none, description := none,
            xdg_position := 0, xdg_system_position := G_MAXUINT,
            save_timeout := 0, save_mask := GSP_ASP_SAVE_MASK_ALL,
            old_system_path := none, skip_next_monitor_event := false,
            save_failed := false }
        let e := gsp_app_update_description e
        some (gsp_app_queue_save env tid e)

/-!
Specification-side vocabulary for the free-filename search: the sequence
of candidate filenames and basenames that `_gsp_find_free_basename`
generates, the collision predicate its loop tests, and a first-match
search used to state what the loop computes.
-/

/-- The `k`-th candidate filename of the probe sequence:
`base.desktop` for `k = 0`, `base-k.desktop` for `k ≥ 1`. -/
def fcand (env : Env) (sugg : String) (k : Nat) : String :=
  if k = 0 then basePathOf env sugg ++ ".desktop"
  else basePathOf env sugg ++ "-" ++ toString k ++ ".desktop"

/-- The `k`-th candidate basename. -/
def bcand (env : Env) (sugg : String) (k : Nat) : String :=
  pathBasename (fcand env sugg k)

/-- The collision test of the probe loop: the candidate basename is
registered in the Registry AND the candidate filename exists on the
filesystem. -/
def collide (env : Env) (sugg : String) (k : Nat) : Bool :=
  env.registry (bcand env sugg k) && env.fileExists (fcand env sugg k)

/-- First index `k` with `start ≤ k < start + n` and `coll k = false`. -/
def firstFree (coll : Nat → Bool) : Nat → Nat → Option Nat
  | _, 0 => none
  | start, n + 1 =>
    if coll start then firstFree coll (start + 1) n else some start

/-- The dirty-mask invariant of the specification, in the direction the
code can break: a non-empty dirty mask only with an armed save or a
failed save pending retry. -/
def dirty_mask_inv (e : GspApp) : Prop :=
  e.save_mask ≠ 0 → e.save_timeout ≠ 0 ∨ e.save_failed = true

instance (e : GspApp) : Decidable (dirty_mask_inv e) := by
  unfold dirty_mask_inv; infer_instance

/-!
Concrete inputs used by the closed theorems below: small environments and
entry states, one cluster per claim.
-/

def kfC1 : KeyFile :=
  { hidden := false, nodisplay := false, name := some "N", exec := some "x",
    comment := none, icon := none, delay := 0,
    onlyShowIn := none, notShowIn := none }

def envC1 : Env :=
  { userConfigDir := "/u",
    fs := fun p => if p == "/sys/f.desktop" then some kfC1 else none,
    fileExists := fun p => p == "/u/autostart/f.desktop",
    dirs := fun n => if n == 1 then some "/sys" else none,
    registry := fun _ => false,
    shellParse := fun s => some [s],
    writeOk := fun _ => true }

/-- An entry whose save timer (glib source id 5) has just fired, and
whose in-memory fields all match the system copy in `/sys`. -/
def appC1 : GspApp :=
  { basename := "f.desktop", path := "/u/autostart/f.desktop",
    hidden := false, nodisplay := false, name := some "N", exec := some "x",
    comment := none, icon := none, delay := 0, gicon := none,
    description := some "<b>N</b>\nNo description",
    xdg_position := 0, xdg_system_position := 1,
    save_timeout := 5, save_mask := GSP_ASP_SAVE_MASK_NAME,
    old_system_path := some "/sys/f.desktop",
    skip_next_monitor_event := false, save_failed := false }

def kfC2 : KeyFile :=
  { hidden := false, nodisplay := false, name := some "N", exec := some "x",
    comment := some "c", icon := none, delay := 0,
    onlyShowIn := none, notShowIn := none }

def envC2 : Env :=
  { userConfigDir := "",
    fs := fun p => if p == "/autostart/f.desktop" then some kfC2 else none,
    fileExists := fun _ => false,
    dirs := fun _ => none,
    registry := fun _ => false,
    shellParse := fun s => some [s],
    writeOk := fun _ => false }

/-- The entry state produced by a fresh load of `/autostart/f.desktop`
at rank 0 in `envC2`: clean (no dirty bit, no armed save, no failed
save), user directory only. -/
def appC2 : GspApp :=
  { basename := "f.desktop", path := "/autostart/f.desktop",
    hidden := false, nodisplay := false, name := some "N", exec := some "x",
    comment := some "c", icon := none, delay := 0, gicon := none,
    description := some "<b>N</b>\nc",
    xdg_position := 0, xdg_system_position := G_MAXUINT,
    save_timeout := 0, save_mask := 0, old_system_path := none,
    skip_next_monitor_event := false, save_failed := false }

/-- An entry with a dirty name bit and an armed save, used to witness the
amended invariant theorem. -/
def appC2w : GspApp :=
  { appC2 with save_mask := GSP_ASP_SAVE_MASK_NAME, save_timeout := 9 }

/-- A filesystem where `f.desktop` exists in the user autostart
directory but no entry is registered: the probe loop's conjunctive test
stops at it immediately. -/
def envC3cx : Env :=
  { userConfigDir := "",
    fs := fun _ => none,
    fileExists := fun p => p == "/autostart/f.desktop",
    dirs := fun _ => none,
    registry := fun _ => false,
    shellParse := fun s => some [s],
    writeOk := fun _ => false }

def envC3w : Env :=
  { userConfigDir := "",
    fs := fun _ => none,
    fileExists := fun _ => false,
    dirs := fun _ => none,
    registry := fun _ => false,
    shellParse := fun s => some [s],
    writeOk := fun _ => false }

/-- A world where every candidate name collides in both the Registry and
the filesystem: the free-name search must exhaust its attempt bound. -/
def envC3all : Env :=
  { userConfigDir := "",
    fs := fun _ => none,
    fileExists := fun _ => true,
    dirs := fun _ => none,
    registry := fun _ => true,
    shellParse := fun s => some [s],
    writeOk := fun _ => false }

def kfC4 : KeyFile :=
  { hidden := true, nodisplay := false, name := none, exec := some "y",
    comment := some "", icon := some "i", delay := 3,
    onlyShowIn := none, notShowIn := none }

def envC4 : Env :=
  { userConfigDir := "/u",
    fs := fun p => if p == "/sys/g.desktop" then some kfC4 else none,
    fileExists := fun p => p == "/u/autostart/g.desktop",
    dirs := fun n => if n == 2 then some "/sys" else none,
    registry := fun _ => false,
    shellParse := fun s => some [s],
    writeOk := fun _ => true }

/-- An entry equal to the system copy `kfC4` under blank-tolerant
equality (its comment is NULL where the file has `""`). -/
def appC4 : GspApp :=
  { basename := "g.desktop", path := "/u/autostart/g.desktop",
    hidden := true, nodisplay := false, name := some "", exec := some "y",
    comment := none, icon := some "i", delay := 3, gicon := none,
    description := some "<b>y</b>\nNo description",
    xdg_position := 0, xdg_system_position := 2,
    save_timeout := 4, save_mask := GSP_ASP_SAVE_MASK_HIDDEN,
    old_system_path := some "/sys/g.desktop",
    skip_next_monitor_event := false, save_failed := false }

def envC5 : Env :=
  { userConfigDir := "/u",
    fs := fun _ => none,
    fileExists := fun _ => false,
    dirs := fun _ => none,
    registry := fun _ => false,
    shellParse := fun s => some [s],
    writeOk := fun _ => true }

/-- A user-directory entry with a dirty exec field about to be flushed. -/
def appC5 : GspApp :=
  { basename := "h.desktop", path := "/u/autostart/h.desktop",
    hidden := false, nodisplay := false, name := some "H", exec := some "h2",
    comment := none, icon := none, delay := 1, gicon := none,
    description := some "<b>H</b>\nNo description",
    xdg_position := 0, xdg_system_position := G_MAXUINT,
    save_timeout := 6, save_mask := GSP_ASP_SAVE_MASK_EXEC,
    old_system_path := none,
    skip_next_monitor_event := false, save_failed := false }

/-- An entry known from a rank-1 system directory, with a lower-priority
(rank 3) duplicate about to be reported. -/
def appC6 : GspApp :=
  { basename := "k.desktop", path := "/sys1/k.desktop",
    hidden := false, nodisplay := false, name := some "K", exec := some "k",
    comment := none, icon := none, delay := 0, gicon := none,
    description := some "<b>K</b>\nNo description",
    xdg_position := 1, xdg_system_position := 1,
    save_timeout := 0, save_mask := 0, old_system_path := none,
    skip_next_monitor_event := false, save_failed := false }

def envC6 : Env := envC5

def envC7 : Env :=
  { userConfigDir := "/u",
    fs := fun _ => none,
    fileExists := fun _ => false,
    dirs := fun _ => none,
    registry := fun _ => false,
    shellParse := fun s => some [s],
    writeOk := fun _ => false }

/-- A promoted entry (originally from a system directory, merge base
recorded) whose flush is about to hit a write failure. -/
def appC7 : GspApp :=
  { basename := "m.desktop", path := "/u/autostart/m.desktop",
    hidden := true, nodisplay := false, name := some "M", exec := some "m",
    comment := some "cm", icon := none, delay := 2, gicon := none,
    description := some "<b>M</b>\ncm",
    xdg_position := 0, xdg_system_position := 1,
    save_timeout := 8, save_mask := GSP_ASP_SAVE_MASK_HIDDEN,
    old_system_path := some "/sys/m.desktop",
    skip_next_monitor_event := false, save_failed := false }

/-- An entry whose name is unset (NULL), for the blank-tolerant update
no-op. -/
def appC8 : GspApp :=
  { basename := "n.desktop", path := "/u/autostart/n.desktop",
    hidden := false, nodisplay := false, name := none, exec := some "n",
    comment := none, icon := none, delay := 5, gicon := none,
    description := some "<b>n</b>\nNo description",
    xdg_position := 0, xdg_system_position := G_MAXUINT,
    save_timeout := 0, save_mask := 0, old_system_path := none,
    skip_next_monitor_event := false, save_failed := false }

def envC8 : Env := envC7

/-- An entry with unsaved edits: dirty name bit, armed save (id 11). -/
def appC9 : GspApp :=
  { basename := "q.desktop", path := "/u/autostart/q.desktop",
    hidden := false, nodisplay := false, name := some "edited", exec := some "q",
    comment := none, icon := none, delay := 0, gicon := none,
    description := some "<b>edited</b>\nNo description",
    xdg_position := 0, xdg_system_position := 2,
    save_timeout := 11, save_mask := GSP_ASP_SAVE_MASK_NAME,
    old_system_path := some "/sys2/q.desktop",
    skip_next_monitor_event := false, save_failed := false }

def envC9 : Env := envC7

def envC10 : Env := envC3w

/-- The entry `gsp_app_create envC10 3 (some "") none (some "x") 0`
builds and registers: blank name, so the display name falls back to the
exec string. -/
def appC10 : GspApp :=
  { basename := "x.desktop", path := "/autostart/x.desktop",
    hidden := false, nodisplay := false, name := some "x", exec := some "x",
    comment := none, icon := none, delay := 0, gicon := none,
    description := some "<b>x</b>\nNo description",
    xdg_position := 0, xdg_system_position := G_MAXUINT,
    save_timeout := 3, save_mask := GSP_ASP_SAVE_MASK_ALL,
    old_system_path := none,
    skip_next_monitor_event := false, save_failed := false }

theorem firstFree_some (coll : Nat → Bool) :
    ∀ n start k, firstFree coll start n = some k →
      start ≤ k ∧ k < start + n ∧ coll k = false ∧
      ∀ j, start ≤ j → j < k → coll j = true := by
  intro n
  induction n with
  | zero => intro start k h; exact absurd h (by simp [firstFree])
  | succ n ih =>
    intro start k h
    unfold firstFree at h
    by_cases hc : coll start
    · rw [if_pos hc] at h
      obtain ⟨h1, h2, h3, h4⟩ := ih (start + 1) k h
      refine ⟨by omega, by omega, h3, ?_⟩
      intro j hj1 hj2
      rcases Nat.eq_or_lt_of_le hj1 with rfl | hlt
      · exact hc
      · exact h4 j hlt hj2
    · rw [if_neg hc] at h
      obtain rfl : start = k := by injection h
      exact ⟨Nat.le_refl _, by omega, Bool.not_eq_true _ ▸ by simpa using hc,
        fun j hj1 hj2 => absurd (Nat.lt_of_le_of_lt hj1 hj2) (Nat.lt_irrefl _)⟩

theorem firstFree_none (coll : Nat → Bool) :
    ∀ n start, firstFree coll start n = none →
      ∀ j, start ≤ j → j < start + n → coll j = true := by
  intro n
  induction n with
  | zero => intro start _ j hj1 hj2; omega
  | succ n ih =>
    intro start h j hj1 hj2
    unfold firstFree at h
    by_cases hc : coll start
    · rw [if_pos hc] at h
      rcases Nat.eq_or_lt_of_le hj1 with rfl | hlt
      · exact hc
      · exact ih (start + 1) h j hlt (by omega)
    · rw [if_neg hc] at h; exact absurd h (by simp)

theorem gsp_find_loop_spec (env : Env) (sugg : String) :
    ∀ fuel j, j + fuel = 10000 → j ≤ 9999 →
    gsp_find_loop env (basePathOf env sugg) fuel (fcand env sugg j)
        (bcand env sugg j) (j + 1) =
      match firstFree (collide env sugg) j (9999 - j) with
      | some k => (bcand env sugg k, k + 1)
      | none => (bcand env sugg 9999, 10000) := by
  intro fuel
  induction fuel with
  | zero => intro j hsum hle; omega
  | succ f ih =>
    intro j hsum hle
    unfold gsp_find_loop
    by_cases hcoll : collide env sugg j = true
    · obtain ⟨hreg, hex⟩ : env.registry (bcand env sugg j) = true ∧
          env.fileExists (fcand env sugg j) = true := by
        simpa [collide] using hcoll
      by_cases hlt : j + 1 < 10000
      · rw [if_pos ⟨hreg, hex, by simpa [GSP_FIND_MAX_TRY] using hlt⟩]
        rw [show basePathOf env sugg ++ "-" ++ toString (j + 1) ++ ".desktop"
              = fcand env sugg (j + 1) by simp [fcand]]
        rw [show pathBasename (fcand env sugg (j + 1)) = bcand env sugg (j + 1)
              from rfl]
        rw [ih (j + 1) (by omega) (by omega)]
        have h9 : 9999 - j = (9999 - (j + 1)) + 1 := by omega
        rw [h9]
        conv_rhs => rw [firstFree]
        rw [if_pos hcoll]
      · have hj : j = 9999 := by omega
        subst hj
        rw [if_neg (by rintro ⟨_, _, hlt'⟩; simp [GSP_FIND_MAX_TRY] at hlt')]
        simp [firstFree]
    · rw [if_neg
          (by rintro ⟨hreg, hex, _⟩; exact hcoll (by simp [collide, hreg, hex]))]
      rcases Nat.lt_or_ge j 9999 with hlt | hge
      · have h9 : 9999 - j = (9999 - (j + 1)) + 1 := by omega
        rw [h9]
        conv_rhs => rw [firstFree]
        rw [if_neg hcoll]
      · have hj : j = 9999 := by omega
        subst hj
        simp [firstFree]

theorem gsp_find_free_basename_spec (env : Env) (sugg : String) :
    gsp_find_free_basename env sugg =
      match firstFree (collide env sugg) 0 9999 with
      | some k => some (bcand env sugg k)
      | none => none := by
  have hloop := gsp_find_loop_spec env sugg 10000 0 (by norm_num) (by norm_num)
  norm_num at hloop
  simp only [gsp_find_free_basename, GSP_FIND_MAX_TRY]
  rw [show basePathOf env sugg ++ ".desktop" = fcand env sugg 0 by simp [fcand]]
  rw [show pathBasename (fcand env sugg 0) = bcand env sugg 0 from rfl]
  rw [hloop]
  cases hff : firstFree (collide env sugg) 0 9999 with
  | none => simp
  | some k =>
    have hk := firstFree_some (collide env sugg) 9999 0 k hff
    simp only []
    rw [if_neg (by omega)]

theorem lor_ne_zero (x m : Nat) (hm : m ≠ 0) : x ||| m ≠ 0 := by
  intro h
  apply hm
  apply Nat.zero_of_testBit_eq_false
  intro i
  have h1 : (x ||| m).testBit i = (x.testBit i || m.testBit i) :=
    Nat.testBit_lor x m i
  rw [h, Nat.zero_testBit] at h1
  exact (Bool.or_eq_false_iff.mp h1.symm).2

theorem queue_save_timeout (env : Env) (tid : Nat) (e : GspApp) :
    (gsp_app_queue_save env tid e).save_timeout = tid := rfl

theorem dirty_mask_inv_queue_save (env : Env) (tid : Nat) (e : GspApp)
    (htid : tid ≠ 0) : dirty_mask_inv (gsp_app_queue_save env tid e) :=
  fun _ => Or.inl (by rw [queue_save_timeout]; exact htid)

theorem queue_save_old_path (env : Env) (tid : Nat) (e : GspApp) (p : String)
    (hp : e.old_system_path = some p) :
    (gsp_app_queue_save env tid e).old_system_path = some p := by
  unfold gsp_app_queue_save
  by_cases h1 : e.save_timeout ≠ 0 <;> by_cases h2 : e.xdg_position ≠ 0 <;>
    simp [h1, h2, hp]

theorem gsp_app_save_success (env : Env) (e : GspApp)
    (hne : gsp_app_user_equal_system env e = none)
    (hw : env.writeOk e.path = true) :
    (gsp_app_save env e).app =
      { e with skip_next_monitor_event := true, save_mask := 0,
               old_system_path := none, save_failed := false,
               save_timeout := 0 } := by
  unfold gsp_app_save
  rw [hne]
  simp [hw]

theorem gsp_app_save_failure (env : Env) (e : GspApp)
    (hne : gsp_app_user_equal_system env e = none)
    (hwf : env.writeOk e.path = false) :
    gsp_app_save env e =
      { app := { e with save_timeout := 0, save_failed := true },
        removedUserFile := false, written := none, writeFailed := true } := by
  unfold gsp_app_save
  rw [hne]
  simp [hwf]

theorem firstFree_allTrue (coll : Nat → Bool) (h : ∀ j, coll j = true) :
    ∀ n start, firstFree coll start n = none := by
  intro n
  induction n with
  | zero => intro start; rfl
  | succ n ih => intro start; unfold firstFree; rw [if_pos (h start), ih]

/-- C1: claimed — every run of `_gsp_app_save` clears the deferred-save
timer handle (`save_timeout`) to 0 by the time it returns, whatever its
outcome. Refuted by the code: the shadow-removal branch returns without
executing the final `priv->save_timeout = 0`. Here a flush that performs
shadow removal (no write, mask cleared) leaves the stale timer handle 5
in place. -/
theorem C1_shadow_removal_flush_keeps_timer_handle :
    (gsp_app_save envC1 appC1).written = none ∧
    (gsp_app_save envC1 appC1).removedUserFile = true ∧
    (gsp_app_save envC1 appC1).app.save_mask = 0 ∧
    (gsp_app_save envC1 appC1).app.save_timeout = 5 := by decide

/-- C2: counterexample — the claimed invariant (non-empty dirty mask only
with an armed save or a failed save pending) is broken by `gsp_app_delete`
on a user-only entry. `appC2` is reachable: a fresh `gsp_app_new` load at
rank 0 produces exactly it (clean mask, no armed save, no failure);
deleting it leaves the hidden bit dirty with no armed save and no
failure pending. -/
theorem C2_delete_user_only_violates_mask_invariant :
    (gsp_app_new envC2 none "/autostart/f.desktop" 0).ret = some appC2 ∧
    (gsp_app_delete envC2 7 appC2).app.save_mask ≠ 0 ∧
    (gsp_app_delete envC2 7 appC2).app.save_timeout = 0 ∧
    (gsp_app_delete envC2 7 appC2).app.save_failed = false := by decide

/-- C2 (amended): after `gsp_app_update`, `gsp_app_set_hidden`, a flush,
or `gsp_app_delete` on an entry that also has a system definition, a
non-empty dirty mask implies an armed save or a failed save pending
retry (given the invariant held before and a real glib source id);
`gsp_app_delete` on a user-only entry, however, leaves the hidden bit
dirty with no armed save and no failure pending — the entry is then
dropped from the Registry. -/
theorem C2_dirty_mask_invariant_per_operation (env : Env) (tid : Nat)
    (e : GspApp) (name comment exec : Str) (delay : Nat) (hid : Bool)
    (htid : tid ≠ 0) (hInv : dirty_mask_inv e) :
    dirty_mask_inv (gsp_app_update env tid e name comment exec delay).1 ∧
    dirty_mask_inv (gsp_app_set_hidden env tid e hid).1 ∧
    dirty_mask_inv (gsp_app_save env e).app ∧
    (¬(e.xdg_position = 0 ∧ e.xdg_system_position = G_MAXUINT) →
      dirty_mask_inv (gsp_app_delete env tid e).app) ∧
    ((e.xdg_position = 0 ∧ e.xdg_system_position = G_MAXUINT) →
      (gsp_app_delete env tid e).app.save_mask ≠ 0 ∧
      (gsp_app_delete env tid e).app.save_timeout = 0 ∧
      (gsp_app_delete env tid e).app.save_failed = e.save_failed) := by
  refine ⟨?_, ?_, ?_, ?_, ?_⟩
  · unfold gsp_app_update
    by_cases c1 : gsp_str_equal name e.name = false <;>
      by_cases c2 : gsp_str_equal comment e.comment = false <;>
        by_cases c3 : gsp_str_equal exec e.exec = false <;>
          by_cases c4 : delay ≠ e.delay <;>
            simp [c1, c2, c3, c4, gsp_app_update_description] <;>
              first
                | exact dirty_mask_inv_queue_save env tid _ htid
                | exact hInv
  · unfold gsp_app_set_hidden
    split
    · exact hInv
    · exact dirty_mask_inv_queue_save env tid _ htid
  · cases hue : gsp_app_user_equal_system env e with
    | some p =>
      have hm : (gsp_app_save env e).app.save_mask = 0 := by
        unfold gsp_app_save; rw [hue]
      exact fun h => absurd hm h
    | none =>
      by_cases hw : env.writeOk e.path
      · rw [gsp_app_save_success env e hue hw]
        exact fun h => absurd rfl h
      · rw [gsp_app_save_failure env e hue (by simpa using hw)]
        exact fun _ => Or.inr rfl
  · intro hnot
    unfold gsp_app_delete
    rw [if_neg hnot]
    exact dirty_mask_inv_queue_save env tid _ htid
  · intro hy
    unfold gsp_app_delete
    rw [if_pos hy]
    exact ⟨lor_ne_zero _ GSP_ASP_SAVE_MASK_HIDDEN (by decide), rfl, rfl⟩

/-- C2 witness: the amended theorem applied to an entry with a dirty name
bit and an armed save (glib source id 9), under the fresh timer id 5. -/
theorem C2_dirty_mask_invariant_per_operation_witness :
    dirty_mask_inv (gsp_app_update envC2 5 appC2w (some "A") none none 4).1 :=
  (C2_dirty_mask_invariant_per_operation envC2 5 appC2w (some "A") none none 4
    true (by decide) (by decide)).1

/-- C3: counterexample — with an empty Registry but `f.desktop` already
present on disk in the user autostart directory, the search returns
`f.desktop` itself, a variant that is in use on the filesystem. The
claim requires the first variant unused in BOTH the Registry and the
filesystem, which here would be `f-1.desktop`: the loop's test is
conjunctive, not disjunctive. -/
theorem C3_probe_accepts_name_existing_on_disk :
    gsp_find_free_basename envC3cx "f" = some "f.desktop" ∧
    envC3cx.fileExists (userAutostartFile envC3cx "f.desktop") = true := by
  decide

/-- C3 (amended): `_gsp_find_free_basename` returns the first variant in
the sequence `base.desktop`, `base-1.desktop`, ... that is NOT
simultaneously registered in the Registry and present on the filesystem;
it returns NULL only when all 9999 probed variants collide in both, and
`gsp_app_create` then fails with no entry built or registered. -/
theorem C3_free_basename_first_not_doubly_used (env : Env) (sugg : String) :
    (∀ b, gsp_find_free_basename env sugg = some b →
       ∃ k, k < 9999 ∧ b = bcand env sugg k ∧ collide env sugg k = false ∧
         ∀ j, j < k → collide env sugg j = true) ∧
    (gsp_find_free_basename env sugg = none →
       ∀ j, j < 9999 → collide env sugg j = true) ∧
    (∀ tid name comment exec delay argv,
       env.shellParse (Option.getD exec "") = some argv →
       gsp_find_free_basename env (argv.headD "") = none →
       gsp_app_create env tid name comment exec delay = none) := by
  refine ⟨?_, ?_, ?_⟩
  · intro b hb
    rw [gsp_find_free_basename_spec] at hb
    cases hff : firstFree (collide env sugg) 0 9999 with
    | none => rw [hff] at hb; cases hb
    | some k =>
      rw [hff] at hb
      dsimp only at hb
      obtain ⟨-, hk2, hk3, hk4⟩ := firstFree_some (collide env sugg) 9999 0 k hff
      injection hb with hb
      exact ⟨k, by omega, hb.symm, hk3, fun j hj => hk4 j (Nat.zero_le _) hj⟩
  · intro hn j hj
    rw [gsp_find_free_basename_spec] at hn
    cases hff : firstFree (collide env sugg) 0 9999 with
    | some k => rw [hff] at hn; cases hn
    | none =>
      exact firstFree_none (collide env sugg) 9999 0 hff j (Nat.zero_le _)
        (by omega)
  · intro tid name comment exec delay argv hsp hfb
    unfold gsp_app_create
    by_cases hbl : gsm_util_text_is_blank exec
    · rw [if_pos hbl]
    · rw [if_neg hbl, hsp]
      dsimp only
      rw [hfb]

/-- C3 witness: in a world where every name collides in both the Registry
and the filesystem, creation fails with no entry registered. -/
theorem C3_free_basename_first_not_doubly_used_witness :
    gsp_app_create envC3all 1 none none (some "x") 0 = none :=
  (C3_free_basename_first_not_doubly_used envC3all "x").2.2 1 none none
    (some "x") 0 ["x"] rfl
    (by
      show gsp_find_free_basename envC3all "x" = none
      rw [gsp_find_free_basename_spec,
        firstFree_allTrue (collide envC3all "x")
          (fun j => by simp [collide, envC3all]) 9999 0])

/-- C4: for an entry whose in-memory fields (hidden, name, comment, exec,
icon under blank-tolerant equality; delay exactly) all match the
system-directory file with its filename, the flush deletes the
user-directory file if present, repoints `path` to the system file, sets
`xdg_position` to `xdg_system_position`, clears `save_mask` and
`old_system_path`, and performs no write. -/
theorem C4_shadow_removal_flush (env : Env) (e : GspApp) (d : String)
    (kf : KeyFile)
    (hdir : env.dirs e.xdg_system_position = some d)
    (hfs : env.fs (d ++ "/" ++ e.basename) = some kf)
    (hh : kf.hidden = e.hidden)
    (hn : gsp_str_equal kf.name e.name = true)
    (hc : gsp_str_equal kf.comment e.comment = true)
    (he : gsp_str_equal kf.exec e.exec = true)
    (hi : gsp_str_equal kf.icon e.icon = true)
    (hd : kf.delay = e.delay) :
    gsp_app_save env e =
      { app := { e with
          path := d ++ "/" ++ e.basename,
          xdg_position := e.xdg_system_position,
          save_mask := 0, old_system_path := none,
          save_failed := false },
        removedUserFile := env.fileExists e.path,
        written := none, writeFailed := false } := by
  have hue : gsp_app_user_equal_system env e = some (d ++ "/" ++ e.basename) := by
    unfold gsp_app_user_equal_system
    rw [hdir]
    simp [hfs, hh, hn, hc, he, hi, hd]
  unfold gsp_app_save
  rw [hue]

/-- C4 witness: shadow removal on a concrete entry whose fields match its
`/sys` counterpart under blank-tolerant equality (NULL comment vs `""`
in the file). -/
theorem C4_shadow_removal_flush_witness :
    gsp_app_save envC4 appC4 =
      { app := { appC4 with
          path := "/sys" ++ "/" ++ appC4.basename,
          xdg_position := appC4.xdg_system_position,
          save_mask := 0, old_system_path := none,
          save_failed := false },
        removedUserFile := envC4.fileExists appC4.path,
        written := none, writeFailed := false } :=
  C4_shadow_removal_flush envC4 appC4 "/sys" kfC4 (by decide) (by decide)
    (by decide) (by decide) (by decide) (by decide) (by decide) (by decide)

/-- C5: a successful write flush sets the one-shot suppression flag, and
the immediately following `gsp_app_new` call for the same path and rank
returns NULL, clears the flag and performs no field reload: the entry
afterwards differs from the flushed entry only in the cleared flag. -/
theorem C5_suppression_flag_consumed_by_reload (env env2 : Env) (e : GspApp)
    (hne : gsp_app_user_equal_system env e = none)
    (hw : env.writeOk e.path = true) :
    (gsp_app_save env e).app.skip_next_monitor_event = true ∧
    gsp_app_new env2 (some ((gsp_app_save env e).app))
        ((gsp_app_save env e).app.path)
        ((gsp_app_save env e).app.xdg_position) =
      { ret := none,
        entry := some { (gsp_app_save env e).app with
                        skip_next_monitor_event := false } } := by
  rw [gsp_app_save_success env e hne hw]
  constructor
  · rfl
  · unfold gsp_app_new
    dsimp only
    rw [if_pos ⟨rfl, rfl⟩]

/-- C5 witness: flushing a dirty user-directory entry, then reloading it
at the same path and rank. -/
theorem C5_suppression_flag_consumed_by_reload_witness :
    (gsp_app_save envC5 appC5).app.skip_next_monitor_event = true ∧
    gsp_app_new envC5 (some ((gsp_app_save envC5 appC5).app))
        ((gsp_app_save envC5 appC5).app.path)
        ((gsp_app_save envC5 appC5).app.xdg_position) =
      { ret := none,
        entry := some { (gsp_app_save envC5 appC5).app with
                        skip_next_monitor_event := false } } :=
  C5_suppression_flag_consumed_by_reload envC5 envC5 appC5 (by decide)
    (by decide)

/-- C6: for an entry already known at a strictly higher priority
(smaller `xdg_position`), `gsp_app_new` with a larger rank returns NULL
and changes only `xdg_system_position`, which becomes the minimum of its
current value and the incoming rank; every displayed field is untouched
(the incoming file is not even parsed). -/
theorem C6_lower_priority_duplicate_only_updates_system_rank (env : Env)
    (e : GspApp) (path : String) (pos : Nat)
    (hlt : e.xdg_position < pos) :
    gsp_app_new env (some e) path pos =
      { ret := none,
        entry := some { e with
          xdg_system_position := min pos e.xdg_system_position } } := by
  unfold gsp_app_new
  dsimp only
  rw [if_neg (by rintro ⟨h1, _⟩; omega), if_pos (Or.inl hlt)]

/-- C6 witness: an entry known at rank 1 sees a rank-3 duplicate. -/
theorem C6_lower_priority_duplicate_only_updates_system_rank_witness :
    gsp_app_new envC6 (some appC6) "/sys3/k.desktop" 3 =
      { ret := none,
        entry := some { appC6 with
          xdg_system_position := min 3 appC6.xdg_system_position } } :=
  C6_lower_priority_duplicate_only_updates_system_rank envC6 appC6
    "/sys3/k.desktop" 3 (by decide)

/-- C7: when the flush's disk write fails, `save_mask` and
`old_system_path` (and all in-memory field values) are left exactly as
they were, no document is written, the failure is reported, and a later
re-arm keeps the recorded merge base, so the retry runs against the same
base document. -/
theorem C7_write_failure_preserves_save_state (env env2 : Env) (tid : Nat)
    (e : GspApp)
    (hne : gsp_app_user_equal_system env e = none)
    (hwf : env.writeOk e.path = false) :
    (gsp_app_save env e).app.save_mask = e.save_mask ∧
    (gsp_app_save env e).app.old_system_path = e.old_system_path ∧
    (gsp_app_save env e).app.name = e.name ∧
    (gsp_app_save env e).app.exec = e.exec ∧
    (gsp_app_save env e).app.comment = e.comment ∧
    (gsp_app_save env e).app.hidden = e.hidden ∧
    (gsp_app_save env e).app.delay = e.delay ∧
    (gsp_app_save env e).written = none ∧
    (gsp_app_save env e).writeFailed = true ∧
    (∀ p, e.old_system_path = some p →
      (gsp_app_queue_save env2 tid ((gsp_app_save env e).app)).old_system_path
        = some p) := by
  rw [gsp_app_save_failure env e hne hwf]
  refine ⟨rfl, rfl, rfl, rfl, rfl, rfl, rfl, rfl, rfl, ?_⟩
  intro p hp
  exact queue_save_old_path env2 tid _ p hp

/-- C7 witness: a promoted entry with merge base `/sys/m.desktop` whose
write fails: its dirty mask survives and a re-arm keeps the base. -/
theorem C7_write_failure_preserves_save_state_witness :
    (gsp_app_save envC7 appC7).app.save_mask = appC7.save_mask ∧
    (gsp_app_queue_save envC7 12
        ((gsp_app_save envC7 appC7).app)).old_system_path
      = some "/sys/m.desktop" :=
  ⟨(C7_write_failure_preserves_save_state envC7 envC7 12 appC7 (by decide)
      (by decide)).1,
   (C7_write_failure_preserves_save_state envC7 envC7 12 appC7 (by decide)
      (by decide)).2.2.2.2.2.2.2.2.2 "/sys/m.desktop" (by decide)⟩

/-- C8: `gsp_app_update` is a complete no-op — entry unchanged, no dirty
bit, no armed save, no "changed" signal — whenever each incoming value
equals the current one under blank-tolerant equality (delay exactly). -/
theorem C8_update_blank_tolerant_noop (env : Env) (tid : Nat) (e : GspApp)
    (name comment exec : Str) (delay : Nat)
    (h1 : gsp_str_equal name e.name = true)
    (h2 : gsp_str_equal comment e.comment = true)
    (h3 : gsp_str_equal exec e.exec = true)
    (h4 : delay = e.delay) :
    gsp_app_update env tid e name comment exec delay = (e, false) := by
  unfold gsp_app_update
  simp [h1, h2, h3, h4]

/-- C8 witness: `update(name="", comment="", ...)` on an entry whose name
and comment are unset (NULL) marks nothing dirty and arms nothing. -/
theorem C8_update_blank_tolerant_noop_witness :
    gsp_app_update envC8 13 appC8 (some "") (some "") (some "n") 5 =
      (appC8, false) :=
  C8_update_blank_tolerant_noop envC8 13 appC8 (some "") (some "") (some "n")
    5 (by decide) (by decide) (by decide) (by decide)

/-- C9: while a deferred save is armed (`save_timeout` nonzero), any
`gsp_app_new` call for an existing entry returns NULL and leaves every
displayed field, the dirty mask and the timer untouched: a full in-place
repopulation can only happen with no save armed, so unsaved in-memory
edits are never overwritten from disk. -/
theorem C9_no_repopulation_while_save_armed (env : Env) (e : GspApp)
    (path : String) (pos : Nat) (harm : e.save_timeout ≠ 0) :
    (gsp_app_new env (some e) path pos).ret = none ∧
    ∃ e', (gsp_app_new env (some e) path pos).entry = some e' ∧
      e'.name = e.name ∧ e'.exec = e.exec ∧ e'.comment = e.comment ∧
      e'.icon = e.icon ∧ e'.delay = e.delay ∧ e'.hidden = e.hidden ∧
      e'.path = e.path ∧ e'.save_mask = e.save_mask ∧
      e'.description = e.description ∧ e'.save_timeout = e.save_timeout := by
  unfold gsp_app_new
  dsimp only
  by_cases hskip : e.xdg_position = pos ∧ e.skip_next_monitor_event = true
  · rw [if_pos hskip]
    exact ⟨rfl, _, rfl, rfl, rfl, rfl, rfl, rfl, rfl, rfl, rfl, rfl, rfl⟩
  · rw [if_neg hskip, if_pos (Or.inr harm)]
    exact ⟨rfl, _, rfl, rfl, rfl, rfl, rfl, rfl, rfl, rfl, rfl, rfl, rfl⟩

/-- C9 witness: a monitor event for an entry with unsaved edits (armed
save id 11) is ignored. -/
theorem C9_no_repopulation_while_save_armed_witness :
    (gsp_app_new envC9 (some appC9) "/u/autostart/q.desktop" 0).ret = none :=
  (C9_no_repopulation_while_save_armed envC9 appC9 "/u/autostart/q.desktop" 0
    (by decide)).1

/-- C10: `gsp_app_create` applies the display-name fallback at creation
time — when the provided name is blank the created entry's name is the
exec string, otherwise the provided name. -/
theorem C10_create_display_name_fallback (env : Env) (tid : Nat)
    (name comment exec : Str) (delay : Nat) (a : GspApp)
    (h : gsp_app_create env tid name comment exec delay = some a) :
    a.name = if gsm_util_text_is_blank name then exec else name := by
  unfold gsp_app_create at h
  by_cases hb : gsm_util_text_is_blank exec
  · rw [if_pos hb] at h; cases h
  · rw [if_neg hb] at h
    cases hsp : env.shellParse (exec.getD "") with
    | none => rw [hsp] at h; cases h
    | some argv =>
      rw [hsp] at h
      dsimp only at h
      cases hfb : gsp_find_free_basename env (argv.headD "") with
      | none => rw [hfb] at h; cases h
      | some b =>
        rw [hfb] at h
        dsimp only at h
        injection h with h
        subst h
        by_cases hn : gsm_util_text_is_blank name
        · simp [gsp_app_queue_save, gsp_app_update_description, hn]
        · simp [gsp_app_queue_save, gsp_app_update_description, hn]

/-- C10 witness: creating with a blank name (`""`) and exec `"x"` yields
the concrete entry `appC10`, whose name is the exec string. -/
theorem C10_create_display_name_fallback_witness :
    appC10.name = if gsm_util_text_is_blank (some "") then some "x"
                  else some "" :=
  C10_create_display_name_fallback envC10 3 (some "") none (some "x") 0
    appC10 (by decide)

end GspAppModel
